import Mathlib

/-!
Verification of the CredLink Python SDK transport layer
(`src/sdk/python/src/credlink/transport.py` and
`src/sdk/python/src/credlink/types.py`) against its specification.

Shallow embedding conventions:
* Python floats used for times and delays are modelled as exact rationals `ℚ`.
* `random.random()` is modelled as an explicit parameter `r : ℚ` (one draw per
  backoff computation), with `0 ≤ r ≤ 1` stated as a hypothesis where needed.
* Exceptions become explicit `Except` results; the exception objects that flow
  through the retry handler are values of type `PyError`.
* Mutation of `self` becomes explicit state passing on the structures below.
-/

/-- The six error kinds of the taxonomy, standing for the Python subclasses of
`CredLinkError` in `types.py` (`AuthError`, `RateLimitError`, `ConflictError`,
`ValidationError`, `ServerError`, `NetworkError`). -/
inductive ErrorKind
  | auth
  | rateLimit
  | conflict
  | validation
  | server
  | network
  deriving DecidableEq, Repr

/-- Model of `types.py` `CredLinkError` instances: the fields set by
`CredLinkError.__init__` plus the `RateLimitError`-only fields `retry_after`
and `attempt_count` (which are `None` on the other kinds). The dynamic class
of the Python object is modelled by the `kind` field. -/
structure CredLinkError where
  kind : ErrorKind
  message : String
  code : String
  status_code : Nat
  request_id : Option String
  idempotency_key : Option String
  endpoint : Option String
  hint : Option String
  docs_url : Option String
  retry_after : Option Int
  attempt_count : Option Nat
  deriving DecidableEq, Repr

/-- `AuthError.__init__` (types.py lines 93-104): `status_code` is hard-coded
to 401 whatever triggered the error. The `hint` parameter models the value
popped from kwargs; every call site in `transport.py` passes the key. -/
def mkAuthError (message : String) (request_id endpoint hint : Option String) :
    CredLinkError :=
  { kind := ErrorKind.auth, message := message, code := "AUTH_ERROR",
    status_code := 401, request_id := request_id, idempotency_key := none,
    endpoint := endpoint, hint := hint,
    docs_url := some "https://docs.credlink.com/api/errors#auth_error",
    retry_after := none, attempt_count := none }

/-- `RateLimitError.__init__` (types.py lines 115-134): `status_code` is 429;
`attempt_count` defaults to `None` (no transport call site passes it). -/
def mkRateLimitError (message : String) (retry_after : Option Int)
    (request_id endpoint hint : Option String) : CredLinkError :=
  { kind := ErrorKind.rateLimit, message := message, code := "RATE_LIMIT_ERROR",
    status_code := 429, request_id := request_id, idempotency_key := none,
    endpoint := endpoint, hint := hint,
    docs_url := some "https://docs.credlink.com/api/errors#rate_limit_error",
    retry_after := retry_after, attempt_count := none }

/-- `ConflictError.__init__` (types.py lines 154-165): `status_code` is 409. -/
def mkConflictError (message : String)
    (request_id idempotency_key endpoint hint : Option String) : CredLinkError :=
  { kind := ErrorKind.conflict, message := message, code := "CONFLICT_ERROR",
    status_code := 409, request_id := request_id,
    idempotency_key := idempotency_key, endpoint := endpoint, hint := hint,
    docs_url := some "https://docs.credlink.com/api/errors#conflict_error",
    retry_after := none, attempt_count := none }

/-- `ValidationError.__init__` (types.py lines 180-191): `status_code` is 422. -/
def mkValidationError (message : String) (request_id endpoint hint : Option String) :
    CredLinkError :=
  { kind := ErrorKind.validation, message := message, code := "VALIDATION_ERROR",
    status_code := 422, request_id := request_id, idempotency_key := none,
    endpoint := endpoint, hint := hint,
    docs_url := some "https://docs.credlink.com/api/errors#validation_error",
    retry_after := none, attempt_count := none }

/-- `ServerError.__init__` (types.py lines 202-213): `status_code` is
hard-coded to 500 whatever 5xx status triggered the error. -/
def mkServerError (message : String) (request_id endpoint hint : Option String) :
    CredLinkError :=
  { kind := ErrorKind.server, message := message, code := "SERVER_ERROR",
    status_code := 500, request_id := request_id, idempotency_key := none,
    endpoint := endpoint, hint := hint,
    docs_url := some "https://docs.credlink.com/api/errors#server_error",
    retry_after := none, attempt_count := none }

/-- `NetworkError.__init__` (types.py lines 224-235): `status_code` is
hard-coded to 0. -/
def mkNetworkError (message : String) (request_id endpoint hint : Option String) :
    CredLinkError :=
  { kind := ErrorKind.network, message := message, code := "NETWORK_ERROR",
    status_code := 0, request_id := request_id, idempotency_key := none,
    endpoint := endpoint, hint := hint,
    docs_url := some "https://docs.credlink.com/api/errors#network_error",
    retry_after := none, attempt_count := none }

/-- A Python exception that is not a `CredLinkError`, as observed by the
attribute probes in `_create_retry_predicate` (transport.py lines 484-489):
`excName` identifies the class (for example "httpx.ConnectTimeout");
`status_code` and `code` model `getattr` results when `hasattr` succeeds.
The httpx transport exceptions (`httpx.ConnectError` for DNS failures,
`httpx.ReadError` for connection resets, `httpx.ConnectTimeout` /
`httpx.ReadTimeout` for timeouts) define neither a `status_code` nor a
`code` attribute, so for them both fields are `none`; the `code` strings the
predicate checks (`ECONNRESET`, ...) are Node.js errno names no Python httpx
exception carries. -/
structure OtherExc where
  excName : String
  status_code : Option Int
  code : Option String
  deriving DecidableEq, Repr

/-- The exceptions that flow through `RetryHandler.execute_with_retry` and
`CircuitBreaker.execute`: structured SDK errors or raw third-party
exceptions. -/
inductive PyError
  | credlink (e : CredLinkError)
  | other (o : OtherExc)
  deriving DecidableEq, Repr

/-- The `kind` of a `PyError` when it is a structured SDK error: raw
exceptions have no kind in the taxonomy. -/
def PyError.kindOf : PyError → Option ErrorKind
  | PyError.credlink e => some e.kind
  | PyError.other _ => none

-- ===========================================================================
-- Circuit breaker (transport.py lines 33-103)
-- ===========================================================================

/-- `CircuitBreakerState.__init__` (transport.py lines 33-39). The Python
`state` field is one of the strings "closed", "open", "half_open". -/
structure CircuitBreakerState where
  state : String
  failure_count : Nat
  last_failure_time : Option ℚ
  next_attempt_time : Option ℚ
  deriving DecidableEq, Repr

/-- `CircuitBreaker` instance attributes (transport.py lines 42-51). -/
structure CircuitBreaker where
  name : String
  failure_threshold : Nat
  recovery_timeout : ℚ
  half_open_max_calls : Nat
  half_open_calls : Nat
  state : CircuitBreakerState
  deriving DecidableEq, Repr

/-- `CircuitBreaker.__init__` with the default arguments
`failure_threshold=5`, `recovery_timeout=60` and the hard-coded
`half_open_max_calls = 3` (transport.py lines 45-51); this is how
`HttpTransport.__init__` builds its breaker (line 252). -/
def mkCircuitBreaker (name : String) : CircuitBreaker :=
  { name := name, failure_threshold := 5, recovery_timeout := 60,
    half_open_max_calls := 3, half_open_calls := 0,
    state := { state := "closed", failure_count := 0,
               last_failure_time := none, next_attempt_time := none } }

/-- `CircuitBreaker._set_state` (transport.py lines 91-99). -/
def CircuitBreaker.set_state (cb : CircuitBreaker) (now : ℚ) (new_state : String) :
    CircuitBreaker :=
  let cb1 : CircuitBreaker := { cb with state := { cb.state with state := new_state } }
  if new_state = "open" then
    { cb1 with state :=
        { cb1.state with next_attempt_time := some (now + cb1.recovery_timeout) } }
  else if new_state = "closed" then
    { cb1 with state := { cb1.state with failure_count := 0 }, half_open_calls := 0 }
  else cb1

/-- `CircuitBreaker._on_success` (transport.py lines 72-79); `now` is passed
for uniformity but `_set_state("closed")` does not read the clock. -/
def CircuitBreaker.on_success (cb : CircuitBreaker) (now : ℚ) : CircuitBreaker :=
  if cb.state.state = "half_open" then
    let cb1 : CircuitBreaker := { cb with half_open_calls := cb.half_open_calls + 1 }
    if cb1.half_open_max_calls ≤ cb1.half_open_calls then cb1.set_state now "closed"
    else cb1
  else cb.set_state now "closed"

/-- `CircuitBreaker._on_failure` (transport.py lines 81-89), where `now`
models `time.time()`. -/
def CircuitBreaker.on_failure (cb : CircuitBreaker) (now : ℚ) : CircuitBreaker :=
  let cb1 : CircuitBreaker :=
    { cb with state := { cb.state with
                         failure_count := cb.state.failure_count + 1
                         last_failure_time := some now } }
  if cb1.state.state = "half_open" then cb1.set_state now "open"
  else if cb1.failure_threshold ≤ cb1.state.failure_count then cb1.set_state now "open"
  else cb1

/-- The `NetworkError` raised by `CircuitBreaker.execute` when the circuit is
open (transport.py lines 57-60); the Python message is the f-string
`Circuit breaker {name} is open` with the name quoted. -/
def circuitOpenError (name : String) : CredLinkError :=
  mkNetworkError ("Circuit breaker " ++ name ++ " is open") none none
    (some "Service is temporarily unavailable. Please retry later.")

/-- Outcome of one `CircuitBreaker.execute` call: either the call was
rejected while open (the underlying operation was not invoked), or the
operation was invoked and its value returned, or the operation was invoked,
failed, and its exception re-raised. -/
inductive ExecOutcome (α : Type)
  | rejectedOpen (e : CredLinkError)
  | returned (v : α)
  | raised (e : PyError)
  deriving DecidableEq, Repr

/-- The `try` block of `CircuitBreaker.execute` (transport.py lines 64-70):
invoke the operation, record the outcome on the breaker, and return or
re-raise. The single invocation of the operation is modelled by its
outcome `op`. -/
def CircuitBreaker.run (cb : CircuitBreaker) (now : ℚ) {α : Type}
    (op : Except PyError α) : CircuitBreaker × ExecOutcome α :=
  match op with
  | Except.ok v => (cb.on_success now, ExecOutcome.returned v)
  | Except.error e => (cb.on_failure now, ExecOutcome.raised e)

/-- `CircuitBreaker.execute` (transport.py lines 53-70). The guard
`time.time() < (self.state.next_attempt_time or 0)` is modelled with
`Option.getD 0`, which agrees with Python truthiness (`None or 0` and
`0.0 or 0` both give 0). -/
def CircuitBreaker.execute (cb : CircuitBreaker) (now : ℚ) {α : Type}
    (op : Except PyError α) : CircuitBreaker × ExecOutcome α :=
  if cb.state.state = "open" then
    if now < cb.state.next_attempt_time.getD 0 then
      (cb, ExecOutcome.rejectedOpen (circuitOpenError cb.name))
    else
      ({ cb.set_state now "half_open" with half_open_calls := 0 }).run now op
  else cb.run now op

-- ===========================================================================
-- Retry handler with jittered exponential backoff (transport.py lines 110-160)
-- ===========================================================================

/-- `RetryConfig` (types.py lines 16-21) with its default field values
`max_attempts=5`, `base_ms=250`, `max_ms=5000`, `jitter=True`. -/
structure RetryConfig where
  max_attempts : Nat
  base_ms : ℚ
  max_ms : ℚ
  jitter : Bool
  deriving DecidableEq, Repr

/-- The default `RetryConfig`, equal to `DEFAULT_CONFIG["retries"]`
(transport.py lines 241-246). -/
def defaultRetryConfig : RetryConfig :=
  { max_attempts := 5, base_ms := 250, max_ms := 5000, jitter := true }

/-- `RetryHandler._calculate_delay` (transport.py lines 145-160); the single
`random.random()` draw is the explicit parameter `r`. The function is only
ever called with `attempt > 0` (line 128), where the Python
`2 ** (attempt - 1)` agrees with the natural subtraction used here. -/
def calculate_delay (config : RetryConfig) (r : ℚ) (attempt : Nat) : ℚ :=
  let exponential_delay := config.base_ms * 2 ^ (attempt - 1) / 1000
  if config.jitter then min (r * exponential_delay) (config.max_ms / 1000)
  else min exponential_delay (config.max_ms / 1000)

/-- Observable trace of one `RetryHandler.execute_with_retry` call:
how many times the operation was invoked, the backoff delays slept in order
(one before every attempt after the first), and the final outcome (returned
value, or the exception raised via `raise last_error`). -/
structure RetryTrace (α : Type) where
  invocations : Nat
  delays : List ℚ
  result : Except PyError α

/-- The loop body of `RetryHandler.execute_with_retry` (transport.py lines
126-143), starting at a given `attempt`; `remaining = max_attempts - attempt`
counts the loop iterations still allowed after this one, so the
`attempt == max_attempts` test of line 136 is `remaining = 0`. The k-th
invocation outcome is `op k`; `rand k` is the `random.random()` draw inside
the delay computation of attempt k. The assignment
`error.attempt_count = attempt + 1` of line 141 mutates an exception object
that is superseded before the final `raise last_error`: it executes only
when the loop continues, and the next iteration rebinds `last_error` (and on
success no error is raised at all), so with each invocation raising a fresh
exception object the annotated value never escapes and is dropped from the
trace. -/
def retry_go (config : RetryConfig) (rand : Nat → ℚ) {α : Type}
    (op : Nat → Except PyError α) (is_retryable : PyError → Bool) :
    Nat → Nat → RetryTrace α
  | attempt, 0 =>
    let ds := if 0 < attempt then [calculate_delay config (rand attempt) attempt] else []
    match op attempt with
    | Except.ok v => { invocations := 1, delays := ds, result := Except.ok v }
    | Except.error e => { invocations := 1, delays := ds, result := Except.error e }
  | attempt, remaining + 1 =>
    let ds := if 0 < attempt then [calculate_delay config (rand attempt) attempt] else []
    match op attempt with
    | Except.ok v => { invocations := 1, delays := ds, result := Except.ok v }
    | Except.error e =>
      if is_retryable e then
        let rest := retry_go config rand op is_retryable (attempt + 1) remaining
        { invocations := 1 + rest.invocations, delays := ds ++ rest.delays,
          result := rest.result }
      else { invocations := 1, delays := ds, result := Except.error e }

/-- `RetryHandler.execute_with_retry` (transport.py lines 116-143): run the
loop from attempt 0 with `max_attempts` further iterations allowed. -/
def execute_with_retry (config : RetryConfig) (rand : Nat → ℚ) {α : Type}
    (op : Nat → Except PyError α) (is_retryable : PyError → Bool) : RetryTrace α :=
  retry_go config rand op is_retryable 0 config.max_attempts

-- ===========================================================================
-- Retryability predicate (transport.py lines 472-493)
-- ===========================================================================

/-- The predicate returned by `HttpTransport._create_retry_predicate`
(transport.py lines 472-493). The `isinstance` chains are decided by the
error kind; for non-`CredLinkError` exceptions the `hasattr` probes on
`status_code` and then `code` are modelled by the optional fields of
`OtherExc`. -/
def is_retryable : PyError → Bool
  | PyError.credlink e =>
    match e.kind with
    | ErrorKind.validation => false
    | ErrorKind.auth => false
    | ErrorKind.conflict => false
    | ErrorKind.rateLimit => true
    | ErrorKind.server => true
    | ErrorKind.network => true
  | PyError.other o =>
    match o.status_code with
    | some s => [(408 : Int), 429, 500, 502, 503, 504].contains s
    | none =>
      match o.code with
      | some c => ["ECONNRESET", "ENOTFOUND", "ECONNREFUSED", "ETIMEDOUT"].contains c
      | none => false

-- ===========================================================================
-- HTTP error classification (transport.py lines 403-470) and request attempt
-- ===========================================================================

/-- The parts of an HTTP error response read by `_handle_http_error`: the
status code, the `detail` / `message` / `hint` fields of the JSON body
(`none` both when the field is absent and when the body failed to parse, in
which case `error_data = {}`), and the `Retry-After` header already parsed
to integer seconds (the `int(retry_after)` of line 418). -/
structure ErrorResponse where
  status_code : Nat
  detail : Option String
  message : Option String
  hint : Option String
  retry_after : Option Int
  deriving DecidableEq, Repr

/-- `HttpTransport._handle_http_error` (transport.py lines 403-470): build
and raise the structured error for a ≥400 response. -/
def handle_http_error (resp : ErrorResponse) (request_id path : String)
    (idempotency_key : Option String) : CredLinkError :=
  let message :=
    resp.detail.getD (resp.message.getD ("HTTP " ++ toString resp.status_code))
  if resp.status_code = 401 then
    mkAuthError message (some request_id) (some path) resp.hint
  else if resp.status_code = 403 then
    mkAuthError message (some request_id) (some path)
      (some (resp.hint.getD "Insufficient permissions for this operation"))
  else if resp.status_code = 409 then
    mkConflictError message (some request_id) idempotency_key (some path) resp.hint
  else if resp.status_code = 422 then
    mkValidationError message (some request_id) (some path) resp.hint
  else if resp.status_code = 429 then
    mkRateLimitError message resp.retry_after (some request_id) (some path) resp.hint
  else if resp.status_code = 500 ∨ resp.status_code = 502 ∨
          resp.status_code = 503 ∨ resp.status_code = 504 then
    mkServerError message (some request_id) (some path) resp.hint
  else
    mkNetworkError ("HTTP " ++ toString resp.status_code ++ ": " ++ message)
      (some request_id) (some path) resp.hint

/-- What one underlying HTTP attempt inside `_make_request` can produce:
a response from the server, or a transport-level exception raised by
`httpx.AsyncClient.request` (DNS failure -> `httpx.ConnectError`, connection
reset -> `httpx.ReadError`, exceeded timeout -> `httpx.ConnectTimeout` /
`httpx.ReadTimeout`). -/
inductive HttpAttempt (β : Type)
  | response (resp : ErrorResponse) (body : β)
  | transportExc (excName : String)
  deriving DecidableEq, Repr

/-- `HttpTransport._make_request` (transport.py lines 368-389) for one
attempt: a transport-level httpx exception propagates unchanged (there is no
try/except around `self.client.request`, so it is not wrapped into a
`NetworkError`; as a raw exception it carries neither a `status_code` nor a
`code` attribute); a response with status ≥ 400 raises the classified error;
otherwise the decoded body is returned. -/
def make_request {β : Type} (attempt : HttpAttempt β) (request_id path : String)
    (idempotency_key : Option String) : Except PyError β :=
  match attempt with
  | HttpAttempt.transportExc n =>
    Except.error (PyError.other { excName := n, status_code := none, code := none })
  | HttpAttempt.response resp body =>
    if 400 ≤ resp.status_code then
      Except.error (PyError.credlink (handle_http_error resp request_id path idempotency_key))
    else Except.ok body

-- ===========================================================================
-- Streaming response consumption (transport.py lines 391-401)
-- ===========================================================================

/-- Python `str.strip()` with no argument: remove leading and trailing
whitespace (`Char.isWhitespace` covers space, tab, CR, LF, the characters
occurring in the bodies handled here). -/
def py_strip (s : String) : String :=
  String.mk (((s.data.dropWhile Char.isWhitespace).reverse.dropWhile
    Char.isWhitespace).reverse)

/-- Split a character list at every newline character. -/
def split_newlines : List Char → List (List Char)
  | [] => [[]]
  | c :: cs =>
    if c = '\n' then [] :: split_newlines cs
    else
      match split_newlines cs with
      | [] => [[c]]
      | l :: ls => (c :: l) :: ls

/-- The lines produced by `response.aiter_lines()` for a textual body, for
bodies using plain `\n` terminators (httpx splits on universal newlines and
does not yield a trailing empty line for a body ending in a newline, like
`str.splitlines`). -/
def aiter_lines (body : String) : List String :=
  let parts := (split_newlines body.data).map String.mk
  if body.data.getLast? = some '\n' then parts.dropLast else parts

/-- The generator inside `HttpTransport._create_async_iterator` (transport.py
lines 393-399): for each line, if `line.strip()` is truthy (non-empty after
stripping) try `json.loads(line)`, yielding the value and skipping the line
on `json.JSONDecodeError`. The decoder is a parameter so the model covers
any JSON value type. -/
def create_async_iterator {J : Type} (json_loads : String → Option J)
    (lines : List String) : List J :=
  lines.filterMap (fun line =>
    if (py_strip line).length ≠ 0 then json_loads line else none)

/-- JSON values for the streamed records exercised in the specification:
flat objects mapping string keys to integers. -/
inductive JsonValue
  | obj (fields : List (String × Int))
  deriving DecidableEq, Repr

/-- Scan the characters of a JSON string literal up to the closing quote
(escape sequences are outside the modelled fragment). -/
def scan_jstring : List Char → Option (List Char × List Char)
  | [] => none
  | c :: cs =>
    if c = '\"' then some ([], cs)
    else
      match scan_jstring cs with
      | some (s, rest) => some (c :: s, rest)
      | none => none

/-- Parse a JSON string literal starting at an opening quote. -/
def parse_jstring : List Char → Option (String × List Char)
  | '\"' :: cs =>
    match scan_jstring cs with
    | some (s, rest) => some (String.mk s, rest)
    | none => none
  | _ => none

/-- Split off a maximal prefix of decimal digits. -/
def take_digits : List Char → List Char × List Char
  | [] => ([], [])
  | c :: cs =>
    if c.isDigit then
      let p := take_digits cs
      (c :: p.1, p.2)
    else ([], c :: cs)

/-- Numeric value of a digit list. -/
def digits_to_nat (ds : List Char) : Nat :=
  List.foldl (fun acc c => 10 * acc + (c.toNat - 48)) 0 ds

/-- Parse a non-negative JSON integer (the only numbers in the modelled
fragment). -/
def parse_jint (cs : List Char) : Option (Int × List Char) :=
  let p := take_digits cs
  if p.1 = [] then none else some ((digits_to_nat p.1 : Int), p.2)

/-- Parse the `"key":int` members of a JSON object, consuming the closing
brace; `fuel` bounds the recursion by the input length. -/
def parse_members : Nat → List Char → Option (List (String × Int) × List Char)
  | 0, _ => none
  | fuel + 1, cs =>
    match parse_jstring cs with
    | none => none
    | some (k, cs1) =>
      match cs1 with
      | ':' :: cs2 =>
        match parse_jint cs2 with
        | none => none
        | some (n, cs3) =>
          match cs3 with
          | ',' :: cs4 =>
            match parse_members fuel cs4 with
            | some (rest, cs5) => some ((k, n) :: rest, cs5)
            | none => none
          | '\x7d' :: cs4 => some ([(k, n)], cs4)
          | _ => none
      | _ => none

/-- Model of Python `json.loads` restricted to the newline-delimited records
exercised here: a flat object with string keys and non-negative integer
values, with no interior whitespace, must span the whole line. Every other
input is rejected, which agrees with `json.loads` on every line of the
streamed body of the specification (in particular on `not-json` and on the
empty line). -/
def json_loads_model (line : String) : Option JsonValue :=
  match line.data with
  | '\x7b' :: '\x7d' :: rest => if rest = [] then some (JsonValue.obj []) else none
  | '\x7b' :: cs =>
    match parse_members cs.length cs with
    | some (fields, []) => some (JsonValue.obj fields)
    | _ => none
  | _ => none

/-- The streamed body from the specification:
four records separated by newlines, with one blank line and one malformed
line. Braces are written with `\x7b` / `\x7d` escapes. -/
def exampleStreamBody : String :=
  "\x7b\"a\":1\x7d\n\n\x7b\"b\":2\x7d\nnot-json\n\x7b\"c\":3\x7d\n"

-- ===========================================================================
-- Effective timeout selection (transport.py lines 284-389)
-- ===========================================================================

/-- `RequestOptions` (types.py lines 47-52): all fields optional, `timeout`
defaulting to `None`. Only the fields the timeout selection reads are
modelled. -/
structure RequestOptions where
  timeout : Option Nat
  idempotency_key : Option String
  deriving DecidableEq, Repr

/-- The timeout selection `timeout = options.timeout if options else
self.config.timeout_ms`, written identically in `HttpTransport.request`
(transport.py line 305) and `HttpTransport.request_stream` (line 339):
when an options object is supplied its `timeout` field is used as-is, even
when it is `None`. -/
def effective_timeout (config_timeout_ms : Nat) (options : Option RequestOptions) :
    Option Nat :=
  match options with
  | some o => o.timeout
  | none => some config_timeout_ms

/-- The `timeout / 1000` conversion performed on that value inside
`_make_request` (transport.py line 383) and on the stream path (line 349):
dividing `None` by an int raises a `TypeError`. -/
def timeout_seconds : Option Nat → Except String ℚ
  | some t => Except.ok ((t : ℚ) / 1000)
  | none => Except.error "TypeError"

-- ===========================================================================
-- Shared concrete instances used by witnesses
-- ===========================================================================

/-- A breaker in the OPEN phase with `next_attempt_time = 60`, as produced
after the failure threshold is crossed at time 0. -/
def openBreakerEx : CircuitBreaker :=
  { mkCircuitBreaker "http-transport" with
    state := { state := "open", failure_count := 5, last_failure_time := some 0,
               next_attempt_time := some 60 } }

/-- A CLOSED breaker that has already seen 4 consecutive failures. -/
def closedBreakerEx : CircuitBreaker :=
  { mkCircuitBreaker "http-transport" with
    state := { state := "closed", failure_count := 4, last_failure_time := some 0,
               next_attempt_time := none } }

/-- A HALF_OPEN breaker that has already accepted 2 probe successes. -/
def halfOpenBreakerEx : CircuitBreaker :=
  { mkCircuitBreaker "http-transport" with
    half_open_calls := 2
    state := { state := "half_open", failure_count := 5, last_failure_time := some 0,
               next_attempt_time := some 60 } }

-- ===========================================================================
-- C1
-- ===========================================================================

/-- C1: while the breaker phase is OPEN and `now` is before
`next_attempt_time`, `execute` raises a Network-kind error without invoking
the underlying operation and leaves the breaker unchanged; on the first call
at or past `next_attempt_time` it transitions to HALF_OPEN, resets the
half-open probe counter to 0, and allows the call through (the outcome is
the invoked operation's outcome). -/
theorem C1_open_rejects_then_half_open {α : Type} (cb : CircuitBreaker) (now : ℚ)
    (op : Except PyError α) (hopen : cb.state.state = "open") :
    (now < cb.state.next_attempt_time.getD 0 →
      cb.execute now op = (cb, ExecOutcome.rejectedOpen (circuitOpenError cb.name)) ∧
      (circuitOpenError cb.name).kind = ErrorKind.network) ∧
    (cb.state.next_attempt_time.getD 0 ≤ now →
      cb.execute now op =
        ({ cb.set_state now "half_open" with half_open_calls := 0 }).run now op ∧
      ({ cb.set_state now "half_open" with half_open_calls := 0 }).state.state =
        "half_open" ∧
      ({ cb.set_state now "half_open" with half_open_calls := 0 }).half_open_calls = 0 ∧
      (∀ v, op = Except.ok v → (cb.execute now op).2 = ExecOutcome.returned v) ∧
      (∀ e, op = Except.error e → (cb.execute now op).2 = ExecOutcome.raised e)) := by
  constructor
  · intro hlt
    exact ⟨by simp [CircuitBreaker.execute, hopen, hlt], rfl⟩
  · intro hge
    have hnlt : ¬ now < cb.state.next_attempt_time.getD 0 := not_lt.mpr hge
    refine ⟨by simp [CircuitBreaker.execute, hopen, hnlt], ?_, ?_, ?_, ?_⟩
    · simp [CircuitBreaker.set_state]
    · simp [CircuitBreaker.set_state]
    · intro v hv
      subst hv
      simp [CircuitBreaker.execute, hopen, hnlt, CircuitBreaker.run]
    · intro e he
      subst he
      simp [CircuitBreaker.execute, hopen, hnlt, CircuitBreaker.run]

/-- Witness for C1 at the concrete OPEN breaker `openBreakerEx`
(`next_attempt_time = 60`): a call at time 10 is rejected with a
Network-kind error and no state change; a call at time 70 goes through and
returns the operation's value. -/
theorem C1_open_rejects_then_half_open_witness :
    (openBreakerEx.execute 10 (Except.ok (37 : Nat)) =
        (openBreakerEx, ExecOutcome.rejectedOpen (circuitOpenError "http-transport")) ∧
      (circuitOpenError "http-transport").kind = ErrorKind.network) ∧
    (openBreakerEx.execute 70 (Except.ok (37 : Nat))).2 = ExecOutcome.returned 37 :=
  ⟨(C1_open_rejects_then_half_open openBreakerEx 10 (Except.ok 37) rfl).1 (by decide),
   ((C1_open_rejects_then_half_open openBreakerEx 70 (Except.ok 37) rfl).2
      (by decide)).2.2.2.1 37 rfl⟩

-- ===========================================================================
-- C2
-- ===========================================================================

/-- C2: the breaker's outcome-handling step functions realize the reference
state machine. In CLOSED: a failure increments `failure_count` and, once the
incremented count reaches `failure_threshold` (default 5), transitions to
OPEN with `next_attempt_time = now + recovery_timeout` (default 60); a
success resets `failure_count` to 0. In HALF_OPEN: any single failure
transitions immediately back to OPEN (recomputing `next_attempt_time`); each
success increments the probe counter, and once it reaches
`half_open_max_calls` (default 3) the breaker transitions to CLOSED with
`failure_count` reset to 0. -/
theorem C2_outcome_state_machine (cb : CircuitBreaker) (now : ℚ) :
    ((mkCircuitBreaker "http-transport").failure_threshold = 5 ∧
     (mkCircuitBreaker "http-transport").recovery_timeout = 60 ∧
     (mkCircuitBreaker "http-transport").half_open_max_calls = 3) ∧
    (cb.state.state = "closed" →
      ((cb.on_success now).state.state = "closed" ∧
       (cb.on_success now).state.failure_count = 0) ∧
      (cb.on_failure now).state.failure_count = cb.state.failure_count + 1 ∧
      (cb.state.failure_count + 1 < cb.failure_threshold →
        (cb.on_failure now).state.state = "closed") ∧
      (cb.failure_threshold ≤ cb.state.failure_count + 1 →
        (cb.on_failure now).state.state = "open" ∧
        (cb.on_failure now).state.next_attempt_time = some (now + cb.recovery_timeout))) ∧
    (cb.state.state = "half_open" →
      ((cb.on_failure now).state.state = "open" ∧
       (cb.on_failure now).state.next_attempt_time = some (now + cb.recovery_timeout)) ∧
      (cb.half_open_calls + 1 < cb.half_open_max_calls →
        (cb.on_success now).state.state = "half_open" ∧
        (cb.on_success now).half_open_calls = cb.half_open_calls + 1) ∧
      (cb.half_open_max_calls ≤ cb.half_open_calls + 1 →
        (cb.on_success now).state.state = "closed" ∧
        (cb.on_success now).state.failure_count = 0 ∧
        (cb.on_success now).half_open_calls = 0)) := by
  refine ⟨⟨rfl, rfl, rfl⟩, ?_, ?_⟩
  · intro hclosed
    refine ⟨⟨?_, ?_⟩, ?_, ?_, ?_⟩
    · simp [CircuitBreaker.on_success, CircuitBreaker.set_state, hclosed]
    · simp [CircuitBreaker.on_success, CircuitBreaker.set_state, hclosed]
    · simp only [CircuitBreaker.on_failure, CircuitBreaker.set_state, hclosed]
      split_ifs <;> simp
    · intro hlt
      have hnle : ¬ cb.failure_threshold ≤ cb.state.failure_count + 1 := by omega
      simp [CircuitBreaker.on_failure, CircuitBreaker.set_state, hclosed, hnle]
    · intro hge
      simp [CircuitBreaker.on_failure, CircuitBreaker.set_state, hclosed, hge]
  · intro hhalf
    refine ⟨?_, ?_, ?_⟩
    · simp [CircuitBreaker.on_failure, CircuitBreaker.set_state, hhalf]
    · intro hlt
      have hnle : ¬ cb.half_open_max_calls ≤ cb.half_open_calls + 1 := by omega
      simp [CircuitBreaker.on_success, CircuitBreaker.set_state, hhalf, hnle]
    · intro hge
      simp [CircuitBreaker.on_success, CircuitBreaker.set_state, hhalf, hge]

/-- Witness for C2 at concrete breakers: `closedBreakerEx` (CLOSED with 4
failures) opens on the 5th failure at time 100 with
`next_attempt_time = 160`; a success on it resets the count;
`halfOpenBreakerEx` (HALF_OPEN with 2 probe successes) closes on the 3rd
success and re-opens on a failure; plus the default constructor constants. -/
theorem C2_outcome_state_machine_witness :
    ((mkCircuitBreaker "http-transport").failure_threshold = 5 ∧
     (mkCircuitBreaker "http-transport").recovery_timeout = 60 ∧
     (mkCircuitBreaker "http-transport").half_open_max_calls = 3) ∧
    ((closedBreakerEx.on_success 100).state.failure_count = 0 ∧
     (closedBreakerEx.on_failure 100).state.state = "open" ∧
     (closedBreakerEx.on_failure 100).state.next_attempt_time = some 160) ∧
    ((halfOpenBreakerEx.on_failure 100).state.state = "open" ∧
     (halfOpenBreakerEx.on_success 100).state.state = "closed" ∧
     (halfOpenBreakerEx.on_success 100).state.failure_count = 0) :=
  ⟨(C2_outcome_state_machine closedBreakerEx 100).1,
   ⟨((C2_outcome_state_machine closedBreakerEx 100).2.1 rfl).1.2,
    (((C2_outcome_state_machine closedBreakerEx 100).2.1 rfl).2.2.2 (by decide)).1,
    by
      have h := (((C2_outcome_state_machine closedBreakerEx 100).2.1 rfl).2.2.2
        (by decide)).2
      rw [h]
      norm_num [closedBreakerEx, mkCircuitBreaker]⟩,
   ⟨((C2_outcome_state_machine halfOpenBreakerEx 100).2.2 rfl).1.1,
    (((C2_outcome_state_machine halfOpenBreakerEx 100).2.2 rfl).2.2 (by decide)).1,
    (((C2_outcome_state_machine halfOpenBreakerEx 100).2.2 rfl).2.2 (by decide)).2.1⟩⟩

-- ===========================================================================
-- C3
-- ===========================================================================

/-- Shared lemma: when every invocation fails and every produced error is
retryable, the retry loop starting at `attempt` with `remaining` further
iterations allowed performs `remaining + 1` invocations, sleeps the backoff
delay before every attempt with positive index, and ends by raising the
error of the last invocation. -/
theorem retry_go_all_fail (config : RetryConfig) (rand : Nat → ℚ) {α : Type}
    (errs : Nat → PyError) (op : Nat → Except PyError α) (p : PyError → Bool)
    (hop : ∀ k, op k = Except.error (errs k)) (hr : ∀ k, p (errs k) = true) :
    ∀ remaining attempt, retry_go config rand op p attempt remaining =
      { invocations := remaining + 1,
        delays :=
          (if 0 < attempt then [calculate_delay config (rand attempt) attempt] else [])
            ++ (List.range' (attempt + 1) remaining).map
                 (fun a => calculate_delay config (rand a) a),
        result := Except.error (errs (attempt + remaining)) } := by
  intro remaining
  induction remaining with
  | zero =>
    intro attempt
    simp [retry_go, hop attempt]
  | succ m ih =>
    intro attempt
    rw [retry_go, hop attempt]
    simp only [hr attempt, if_true]
    rw [ih (attempt + 1)]
    have ha : attempt + 1 + m = attempt + (m + 1) := by omega
    have hinv : 1 + (m + 1) = m + 1 + 1 := by omega
    simp [List.range'_succ, ha, hinv]

/-- C3: with `max_attempts = N ≥ 1` and an operation failing on every
invocation with a retryable error, `execute_with_retry` invokes the
operation exactly `N + 1` times — attempt 0 with no preceding delay and each
attempt `a ∈ [1, N]` preceded by `_calculate_delay(a)` — and finally raises
the error produced by the last invocation. -/
theorem C3_retry_exhaustion (config : RetryConfig) (rand : Nat → ℚ) {α : Type}
    (errs : Nat → PyError) (op : Nat → Except PyError α) (p : PyError → Bool)
    (_hN : 1 ≤ config.max_attempts)
    (hop : ∀ k, op k = Except.error (errs k)) (hr : ∀ k, p (errs k) = true) :
    execute_with_retry config rand op p =
      { invocations := config.max_attempts + 1,
        delays := (List.range' 1 config.max_attempts).map
          (fun a => calculate_delay config (rand a) a),
        result := Except.error (errs config.max_attempts) } := by
  unfold execute_with_retry
  rw [retry_go_all_fail config rand errs op p hop hr config.max_attempts 0]
  simp

/-- Witness for C3: `max_attempts = 2` with every invocation failing with a
retryable `ServerError`; the operation runs 3 times, the two retries are
preceded by the (jitter-free) backoff delays 1/4 s and 1/2 s, and the raised
error is the third invocation's error. -/
theorem C3_retry_exhaustion_witness :
    execute_with_retry
        { max_attempts := 2, base_ms := 250, max_ms := 5000, jitter := false }
        (fun _ => 0)
        (fun k => (Except.error (PyError.credlink
          (mkServerError (toString k) none none none)) : Except PyError Nat))
        is_retryable =
      { invocations := 2 + 1,
        delays := (List.range' 1 2).map (fun a => calculate_delay
          { max_attempts := 2, base_ms := 250, max_ms := 5000, jitter := false }
          ((fun _ => (0 : ℚ)) a) a),
        result := Except.error (PyError.credlink (mkServerError (toString 2) none none none)) } :=
  C3_retry_exhaustion
    { max_attempts := 2, base_ms := 250, max_ms := 5000, jitter := false }
    (fun _ => 0)
    (fun k => PyError.credlink (mkServerError (toString k) none none none))
    (fun k => Except.error (PyError.credlink (mkServerError (toString k) none none none)))
    is_retryable (by decide) (fun _ => rfl) (fun _ => rfl)

-- ===========================================================================
-- C4
-- ===========================================================================

/-- C4: for `attempt ≥ 1` and a jitter draw `r ∈ [0, 1]`, the computed delay
lies in `[0, min(base_delay * 2^(attempt-1), max_delay)]` seconds (delays in
the policy are milliseconds, hence the division by 1000), and with jitter
disabled it equals exactly that upper bound. -/
theorem C4_backoff_delay_bounds (config : RetryConfig) (r : ℚ) (attempt : Nat)
    (_ha : 1 ≤ attempt) (hr0 : 0 ≤ r) (hr1 : r ≤ 1)
    (hb : 0 ≤ config.base_ms) (hm : 0 ≤ config.max_ms) :
    (0 ≤ calculate_delay config r attempt ∧
     calculate_delay config r attempt ≤
       min (config.base_ms * 2 ^ (attempt - 1)) config.max_ms / 1000) ∧
    (config.jitter = false →
     calculate_delay config r attempt =
       min (config.base_ms * 2 ^ (attempt - 1)) config.max_ms / 1000) := by
  have hE : (0 : ℚ) ≤ config.base_ms * 2 ^ (attempt - 1) := by positivity
  have key : min (config.base_ms * 2 ^ (attempt - 1) / 1000) (config.max_ms / 1000) =
      min (config.base_ms * 2 ^ (attempt - 1)) config.max_ms / 1000 :=
    min_div_div_right (by norm_num) _ _
  unfold calculate_delay
  rcases hj : config.jitter with _ | _
  · simp only [if_neg Bool.false_ne_true]
    refine ⟨⟨?_, ?_⟩, fun _ => key⟩
    · rw [key] at *
      positivity
    · rw [key]
  · simp only [if_pos rfl]
    refine ⟨⟨?_, ?_⟩, fun hfalse => by simp at hfalse⟩
    · have h1 : (0 : ℚ) ≤ r * (config.base_ms * 2 ^ (attempt - 1) / 1000) := by positivity
      have h2 : (0 : ℚ) ≤ config.max_ms / 1000 := by positivity
      exact le_min h1 h2
    · rw [← key]
      refine min_le_min ?_ le_rfl
      have hE1 : (0 : ℚ) ≤ config.base_ms * 2 ^ (attempt - 1) / 1000 := by positivity
      calc r * (config.base_ms * 2 ^ (attempt - 1) / 1000)
          ≤ 1 * (config.base_ms * 2 ^ (attempt - 1) / 1000) :=
            mul_le_mul_of_nonneg_right hr1 hE1
        _ = config.base_ms * 2 ^ (attempt - 1) / 1000 := one_mul _

/-- Witness for C4 at `attempt = 3`, `r = 1/2`, with the default policy
numbers: jitter disabled gives exactly `min(250 * 4, 5000)/1000 = 1`
second, and the jittered value stays within the bound. -/
theorem C4_backoff_delay_bounds_witness :
    ((0 ≤ calculate_delay
        { max_attempts := 5, base_ms := 250, max_ms := 5000, jitter := false }
        (1 / 2) 3 ∧
      calculate_delay
        { max_attempts := 5, base_ms := 250, max_ms := 5000, jitter := false }
        (1 / 2) 3 ≤ min ((250 : ℚ) * 2 ^ (3 - 1)) 5000 / 1000) ∧
     (false = false →
      calculate_delay
        { max_attempts := 5, base_ms := 250, max_ms := 5000, jitter := false }
        (1 / 2) 3 = min ((250 : ℚ) * 2 ^ (3 - 1)) 5000 / 1000)) ∧
    (0 ≤ calculate_delay
        { max_attempts := 5, base_ms := 250, max_ms := 5000, jitter := true }
        (1 / 2) 3 ∧
     calculate_delay
        { max_attempts := 5, base_ms := 250, max_ms := 5000, jitter := true }
        (1 / 2) 3 ≤ min ((250 : ℚ) * 2 ^ (3 - 1)) 5000 / 1000) :=
  ⟨C4_backoff_delay_bounds
      { max_attempts := 5, base_ms := 250, max_ms := 5000, jitter := false }
      (1 / 2) 3 (by decide) (by norm_num) (by norm_num) (by norm_num) (by norm_num),
   (C4_backoff_delay_bounds
      { max_attempts := 5, base_ms := 250, max_ms := 5000, jitter := true }
      (1 / 2) 3 (by decide) (by norm_num) (by norm_num) (by norm_num) (by norm_num)).1⟩

-- ===========================================================================
-- C5
-- ===========================================================================

/-- The transport's predicate never retries Auth, Conflict or Validation
errors. -/
theorem is_retryable_false_of_kind (e : CredLinkError)
    (h : e.kind = ErrorKind.auth ∨ e.kind = ErrorKind.conflict ∨
         e.kind = ErrorKind.validation) :
    is_retryable (PyError.credlink e) = false := by
  rcases h with h | h | h <;> simp [is_retryable, h]

/-- The transport's predicate always retries RateLimit, Server and Network
errors. -/
theorem is_retryable_true_of_kind (e : CredLinkError)
    (h : e.kind = ErrorKind.rateLimit ∨ e.kind = ErrorKind.server ∨
         e.kind = ErrorKind.network) :
    is_retryable (PyError.credlink e) = true := by
  rcases h with h | h | h <;> simp [is_retryable, h]

/-- C5: under the transport's retryability predicate, a first invocation
failing with an Auth, Conflict or Validation error is surfaced immediately
after exactly one invocation, whatever `max_attempts` is; invocations all
failing with RateLimit, Server or Network errors are retried until the
attempt budget (`max_attempts + 1` invocations) is exhausted and the last
such error is surfaced. -/
theorem C5_retry_propagation_policy (config : RetryConfig) (rand : Nat → ℚ)
    {α : Type} (op : Nat → Except PyError α) :
    (∀ e : CredLinkError,
      op 0 = Except.error (PyError.credlink e) →
      (e.kind = ErrorKind.auth ∨ e.kind = ErrorKind.conflict ∨
       e.kind = ErrorKind.validation) →
      execute_with_retry config rand op is_retryable =
        { invocations := 1, delays := [],
          result := Except.error (PyError.credlink e) }) ∧
    (∀ errs : Nat → CredLinkError,
      (∀ k, op k = Except.error (PyError.credlink (errs k))) →
      (∀ k, (errs k).kind = ErrorKind.rateLimit ∨ (errs k).kind = ErrorKind.server ∨
            (errs k).kind = ErrorKind.network) →
      execute_with_retry config rand op is_retryable =
        { invocations := config.max_attempts + 1,
          delays := (List.range' 1 config.max_attempts).map
            (fun a => calculate_delay config (rand a) a),
          result := Except.error (PyError.credlink (errs config.max_attempts)) }) := by
  constructor
  · intro e hop0 hkind
    unfold execute_with_retry
    rcases hmax : config.max_attempts with _ | m
    · simp [retry_go, hop0]
    · rw [retry_go, hop0]
      simp [is_retryable_false_of_kind e hkind]
  · intro errs hop hkind
    unfold execute_with_retry
    rw [retry_go_all_fail config rand (fun k => PyError.credlink (errs k)) op
      is_retryable hop
      (fun k => is_retryable_true_of_kind (errs k) (hkind k)) config.max_attempts 0]
    simp

/-- Witness for C5: a `ValidationError` on the first invocation stops after
one invocation even with `max_attempts = 5`; with every invocation failing
with a fresh `RateLimitError` and `max_attempts = 1`, the operation runs
twice and the second error is surfaced. -/
theorem C5_retry_propagation_policy_witness :
    execute_with_retry defaultRetryConfig (fun _ => 0)
        (fun _ => (Except.error (PyError.credlink
          (mkValidationError "bad request" none none none)) : Except PyError Nat))
        is_retryable =
      { invocations := 1, delays := [],
        result := Except.error (PyError.credlink
          (mkValidationError "bad request" none none none)) } ∧
    execute_with_retry
        { max_attempts := 1, base_ms := 250, max_ms := 5000, jitter := false }
        (fun _ => 0)
        (fun k => (Except.error (PyError.credlink
          (mkRateLimitError (toString k) (some 30) none none none)) : Except PyError Nat))
        is_retryable =
      { invocations := 1 + 1,
        delays := (List.range' 1 1).map (fun a => calculate_delay
          { max_attempts := 1, base_ms := 250, max_ms := 5000, jitter := false }
          ((fun _ => (0 : ℚ)) a) a),
        result := Except.error (PyError.credlink
          (mkRateLimitError (toString 1) (some 30) none none none)) } :=
  ⟨(C5_retry_propagation_policy defaultRetryConfig (fun _ => 0)
      (fun _ => Except.error (PyError.credlink
        (mkValidationError "bad request" none none none)))).1
      (mkValidationError "bad request" none none none) rfl (Or.inr (Or.inr rfl)),
   (C5_retry_propagation_policy
      { max_attempts := 1, base_ms := 250, max_ms := 5000, jitter := false }
      (fun _ => 0)
      (fun k => Except.error (PyError.credlink
        (mkRateLimitError (toString k) (some 30) none none none)))).2
      (fun k => mkRateLimitError (toString k) (some 30) none none none)
      (fun _ => rfl) (fun _ => Or.inl rfl)⟩

-- ===========================================================================
-- C6
-- ===========================================================================

/-- C6 evaluated at a failing input: a request attempt that exceeds its
timeout raises `httpx.ConnectTimeout`, which `_make_request` propagates
unchanged instead of converting it to a Network-kind error (there is no
try/except around `self.client.request`); the raw exception has no kind in
the error taxonomy and the retry predicate classifies it as NOT retryable
(it is no `CredLinkError` subclass and carries neither a `status_code` nor a
`code` attribute). The same holds for `httpx.ConnectError` (DNS failure)
and `httpx.ReadError` (connection reset). -/
theorem C6_transport_failure_eval :
    make_request (HttpAttempt.transportExc "httpx.ConnectTimeout" : HttpAttempt Nat)
        "req_1" "/verify/asset" none =
      Except.error (PyError.other
        { excName := "httpx.ConnectTimeout", status_code := none, code := none }) ∧
    is_retryable (PyError.other
        { excName := "httpx.ConnectTimeout", status_code := none, code := none }) =
      false ∧
    (PyError.other
        { excName := "httpx.ConnectTimeout", status_code := none, code := none }).kindOf ≠
      some ErrorKind.network ∧
    is_retryable (PyError.other
        { excName := "httpx.ConnectError", status_code := none, code := none }) =
      false ∧
    is_retryable (PyError.other
        { excName := "httpx.ReadError", status_code := none, code := none }) = false :=
  ⟨rfl, rfl, by decide, rfl, rfl⟩

-- ===========================================================================
-- C7
-- ===========================================================================

/-- C7: the stream iterator yields exactly one decoded value per well-formed
non-blank line, in order — removing any blank or undecodable line from the
body leaves the yielded sequence unchanged (the stream is not aborted), and
a non-blank line that decodes to `v` contributes exactly `v` at its
position. In particular, the body
`{"a":1}\n\n{"b":2}\nnot-json\n{"c":3}\n` yields
`[{"a":1}, {"b":2}, {"c":3}]`. -/
theorem C7_streaming_skips_malformed :
    (∀ (J : Type) (json_loads : String → Option J),
      (∀ (pre post : List String) (bad : String),
        (py_strip bad).length = 0 ∨ json_loads bad = none →
        create_async_iterator json_loads (pre ++ bad :: post) =
          create_async_iterator json_loads (pre ++ post)) ∧
      (∀ (pre post : List String) (line : String) (v : J),
        (py_strip line).length ≠ 0 → json_loads line = some v →
        create_async_iterator json_loads (pre ++ line :: post) =
          create_async_iterator json_loads pre ++
            v :: create_async_iterator json_loads post)) ∧
    create_async_iterator json_loads_model (aiter_lines exampleStreamBody) =
      [JsonValue.obj [("a", 1)], JsonValue.obj [("b", 2)], JsonValue.obj [("c", 3)]] := by
  constructor
  · intro J json_loads
    constructor
    · intro pre post bad hbad
      rcases hbad with hblank | hnone
      · simp [create_async_iterator, List.filterMap_append, hblank]
      · simp [create_async_iterator, List.filterMap_append, hnone]
    · intro pre post line v hline hv
      simp [create_async_iterator, List.filterMap_append, hline, hv]
  · rfl

/-- Witness for C7: skipping the malformed line `not-json` leaves the
yielded sequence unchanged, and a well-formed line contributes exactly its
decoded object at its position. -/
theorem C7_streaming_skips_malformed_witness :
    create_async_iterator json_loads_model
        (["\x7b\"a\":1\x7d"] ++ "not-json" :: ["\x7b\"c\":3\x7d"]) =
      create_async_iterator json_loads_model (["\x7b\"a\":1\x7d"] ++ ["\x7b\"c\":3\x7d"]) ∧
    create_async_iterator json_loads_model ([] ++ "\x7b\"b\":2\x7d" :: []) =
      create_async_iterator json_loads_model [] ++
        JsonValue.obj [("b", 2)] :: create_async_iterator json_loads_model [] :=
  ⟨(C7_streaming_skips_malformed.1 JsonValue json_loads_model).1
      ["\x7b\"a\":1\x7d"] ["\x7b\"c\":3\x7d"] "not-json" (Or.inr rfl),
   (C7_streaming_skips_malformed.1 JsonValue json_loads_model).2
      [] [] "\x7b\"b\":2\x7d" (JsonValue.obj [("b", 2)]) (by decide) rfl⟩

-- ===========================================================================
-- C8
-- ===========================================================================

/-- C8 evaluated: with the default client timeout of 30000 ms, omitting the
options object does select the client default and a supplied
`options.timeout` does override it — but supplying an options object whose
`timeout` field is absent (here one carrying only an idempotency key) makes
the effective timeout `None` rather than the client default, and the
subsequent `timeout / 1000` in `_make_request` raises a `TypeError`. -/
theorem C8_effective_timeout_eval :
    effective_timeout 30000 none = some 30000 ∧
    effective_timeout 30000
        (some { timeout := some 5000, idempotency_key := none }) = some 5000 ∧
    effective_timeout 30000
        (some { timeout := none, idempotency_key := some "key-1" }) = none ∧
    effective_timeout 30000
        (some { timeout := none, idempotency_key := some "key-1" }) ≠ some 30000 ∧
    timeout_seconds (effective_timeout 30000
        (some { timeout := none, idempotency_key := some "key-1" })) =
      Except.error "TypeError" :=
  ⟨rfl, rfl, rfl, by decide, rfl⟩

-- ===========================================================================
-- C9
-- ===========================================================================

/-- The per-invocation fresh `RateLimitError`s used for the C9 evaluation,
as `_handle_http_error` would build them for consecutive 429 responses:
their `attempt_count` is `None` at construction. -/
def c9RateLimitErr (k : Nat) : CredLinkError :=
  mkRateLimitError ("Rate limit exceeded " ++ toString k) (some 30)
    (some "req_1") (some "/verify/asset") none

/-- C9 evaluated: with `max_attempts = 1` and every invocation failing with
a fresh `RateLimitError`, the handler gives up after 2 invocations and the
error it raises is the second invocation's error, whose `attempt_count` is
still `None` — the `error.attempt_count = attempt + 1` assignment (line 141)
runs only after the give-up check of line 136, i.e. only on errors that are
about to be retried and are then superseded before `raise last_error`. -/
theorem C9_rate_limit_annotation_eval :
    (execute_with_retry
        { max_attempts := 1, base_ms := 250, max_ms := 5000, jitter := false }
        (fun _ => 0)
        (fun k => (Except.error (PyError.credlink (c9RateLimitErr k)) :
          Except PyError Nat))
        is_retryable).invocations = 2 ∧
    (execute_with_retry
        { max_attempts := 1, base_ms := 250, max_ms := 5000, jitter := false }
        (fun _ => 0)
        (fun k => (Except.error (PyError.credlink (c9RateLimitErr k)) :
          Except PyError Nat))
        is_retryable).result =
      Except.error (PyError.credlink (c9RateLimitErr 1)) ∧
    (c9RateLimitErr 1).attempt_count = none :=
  ⟨rfl, rfl, rfl⟩

-- ===========================================================================
-- C10
-- ===========================================================================

/-- C10: the `status_code` of every raised structured error is a constant of
its kind rather than the actual HTTP status: Auth errors always carry 401
(also when classified from a 403 response), Server errors always carry 500
(also for 502/503/504), Network errors always carry 0 (also the
circuit-breaker open rejection); only Conflict (409), Validation (422) and
RateLimit (429) errors carry the triggering HTTP status. -/
theorem C10_status_code_constants (resp : ErrorResponse) (request_id path : String)
    (ik : Option String) (name message : String) (ra : Option Int)
    (rid ep hint : Option String) :
    ((mkAuthError message rid ep hint).status_code = 401 ∧
     (mkServerError message rid ep hint).status_code = 500 ∧
     (mkNetworkError message rid ep hint).status_code = 0 ∧
     (mkRateLimitError message ra rid ep hint).status_code = 429 ∧
     (circuitOpenError name).status_code = 0 ∧
     (circuitOpenError name).kind = ErrorKind.network) ∧
    (resp.status_code = 401 ∨ resp.status_code = 403 →
      (handle_http_error resp request_id path ik).kind = ErrorKind.auth ∧
      (handle_http_error resp request_id path ik).status_code = 401) ∧
    (resp.status_code = 409 →
      (handle_http_error resp request_id path ik).kind = ErrorKind.conflict ∧
      (handle_http_error resp request_id path ik).status_code = resp.status_code) ∧
    (resp.status_code = 422 →
      (handle_http_error resp request_id path ik).kind = ErrorKind.validation ∧
      (handle_http_error resp request_id path ik).status_code = resp.status_code) ∧
    (resp.status_code = 429 →
      (handle_http_error resp request_id path ik).kind = ErrorKind.rateLimit ∧
      (handle_http_error resp request_id path ik).status_code = resp.status_code) ∧
    (resp.status_code = 500 ∨ resp.status_code = 502 ∨ resp.status_code = 503 ∨
        resp.status_code = 504 →
      (handle_http_error resp request_id path ik).kind = ErrorKind.server ∧
      (handle_http_error resp request_id path ik).status_code = 500) ∧
    (resp.status_code ∉ ([401, 403, 409, 422, 429, 500, 502, 503, 504] : List Nat) →
      (handle_http_error resp request_id path ik).kind = ErrorKind.network ∧
      (handle_http_error resp request_id path ik).status_code = 0) := by
  refine ⟨⟨rfl, rfl, rfl, rfl, rfl, rfl⟩, ?_, ?_, ?_, ?_, ?_, ?_⟩
  · rintro (h | h) <;>
      simp [handle_http_error, h, mkAuthError]
  · intro h
    simp [handle_http_error, h, mkConflictError]
  · intro h
    simp [handle_http_error, h, mkValidationError]
  · intro h
    simp [handle_http_error, h, mkRateLimitError]
  · rintro (h | h | h | h) <;>
      simp [handle_http_error, h, mkServerError]
  · intro h
    simp only [List.mem_cons, List.not_mem_nil, or_false] at h
    push_neg at h
    obtain ⟨h401, h403, h409, h422, h429, h500, h502, h503, h504⟩ := h
    simp [handle_http_error, h401, h403, h409, h422, h429, h500, h502, h503, h504,
      mkNetworkError]

/-- Witness for C10 at concrete responses: a 403 response yields an Auth
error carrying 401, a 503 response yields a Server error carrying 500, a
418 response yields a Network error carrying 0, and a 429 response yields a
RateLimit error carrying 429. -/
theorem C10_status_code_constants_witness :
    ((handle_http_error
        { status_code := 403, detail := none, message := none, hint := none, retry_after := none }
        "req_1" "/verify/asset" none).kind = ErrorKind.auth ∧
     (handle_http_error
        { status_code := 403, detail := none, message := none, hint := none, retry_after := none }
        "req_1" "/verify/asset" none).status_code = 401) ∧
    ((handle_http_error
        { status_code := 503, detail := none, message := none, hint := none, retry_after := none }
        "req_1" "/verify/asset" none).kind = ErrorKind.server ∧
     (handle_http_error
        { status_code := 503, detail := none, message := none, hint := none, retry_after := none }
        "req_1" "/verify/asset" none).status_code = 500) ∧
    ((handle_http_error
        { status_code := 418, detail := none, message := none, hint := none, retry_after := none }
        "req_1" "/verify/asset" none).kind = ErrorKind.network ∧
     (handle_http_error
        { status_code := 418, detail := none, message := none, hint := none, retry_after := none }
        "req_1" "/verify/asset" none).status_code = 0) ∧
    ((handle_http_error
        { status_code := 429, detail := none, message := none, hint := none, retry_after := some 30 }
        "req_1" "/verify/asset" none).kind = ErrorKind.rateLimit ∧
     (handle_http_error
        { status_code := 429, detail := none, message := none, hint := none, retry_after := some 30 }
        "req_1" "/verify/asset" none).status_code = 429) :=
  ⟨(C10_status_code_constants
      { status_code := 403, detail := none, message := none, hint := none, retry_after := none }
      "req_1" "/verify/asset" none "http-transport" "m" none none none none).2.1
      (Or.inr rfl),
   (C10_status_code_constants
      { status_code := 503, detail := none, message := none, hint := none, retry_after := none }
      "req_1" "/verify/asset" none "http-transport" "m" none none none none).2.2.2.2.2.1
      (Or.inr (Or.inr (Or.inl rfl))),
   (C10_status_code_constants
      { status_code := 418, detail := none, message := none, hint := none, retry_after := none }
      "req_1" "/verify/asset" none "http-transport" "m" none none none none).2.2.2.2.2.2
      (by decide),
   (C10_status_code_constants
      { status_code := 429, detail := none, message := none, hint := none, retry_after := some 30 }
      "req_1" "/verify/asset" none "http-transport" "m" none none none none).2.2.2.2.1
      rfl⟩
